import Mathlib

/-!
Verification of the Sirar-DMO-Chatbot conversation core (src/streamlit_app.py).

The per-utterance processing block (lines 208-294 of the source) is embedded as
a pure step function on an explicit `Session` record.  Python string operations
used by the source (`lower`, `strip`, `title`, `split(',')`, the `in` substring
operator) are modelled on `List Char` for the ASCII inputs the program works
with.  The Streamlit/Gemini surface is outside the verified core, matching the
spec's scope: a turn is `Session × utterance × clock → Session × outcome`.
-/

namespace DMO

/-- The 26 ASCII letter pairs (uppercase, lowercase); used to model Python's
`str.lower`/`str.upper`/`str.title` case mapping on the ASCII inputs. -/
def asciiPairs : List (Char × Char) :=
  [('A', 'a'), ('B', 'b'), ('C', 'c'), ('D', 'd'), ('E', 'e'), ('F', 'f'),
   ('G', 'g'), ('H', 'h'), ('I', 'i'), ('J', 'j'), ('K', 'k'), ('L', 'l'),
   ('M', 'm'), ('N', 'n'), ('O', 'o'), ('P', 'p'), ('Q', 'q'), ('R', 'r'),
   ('S', 's'), ('T', 't'), ('U', 'u'), ('V', 'v'), ('W', 'w'), ('X', 'x'),
   ('Y', 'y'), ('Z', 'z')]

/-- ASCII lowercasing of one character (Python `str.lower`, per character). -/
def pyLowerChar (c : Char) : Char :=
  match asciiPairs.find? (fun p => p.1 == c) with
  | some p => p.2
  | none => c

/-- ASCII uppercasing of one character (Python `str.upper`, per character). -/
def pyUpperChar (c : Char) : Char :=
  match asciiPairs.find? (fun p => p.2 == c) with
  | some p => p.1
  | none => c

/-- ASCII letter test (Python's notion of a cased character, ASCII range). -/
def pyIsAlpha (c : Char) : Bool :=
  (decide ('A' ≤ c) && decide (c ≤ 'Z')) || (decide ('a' ≤ c) && decide (c ≤ 'z'))

/-- Python whitespace characters stripped by `str.strip()`. -/
def isPyWs (c : Char) : Bool :=
  c == ' ' || c == '\t' || c == '\n' || c == '\r' || c == Char.ofNat 11 || c == Char.ofNat 12

/-- `leadMatch pat s` holds when `pat` is an initial segment of `s`. -/
def leadMatch : List Char → List Char → Bool
  | [], _ => true
  | _ :: _, [] => false
  | a :: as, b :: bs => (a == b) && leadMatch as bs

/-- `hasSub s pat`: Python's substring operator `pat in s`. -/
def hasSub : List Char → List Char → Bool
  | [], pat => pat.isEmpty
  | c :: t, pat => leadMatch pat (c :: t) || hasSub t pat

/-- Python `str.lower` on a character list. -/
def pyLowerL (l : List Char) : List Char := l.map pyLowerChar

/-- Python `str.title` on a character list: a character preceded by a letter is
lowercased, any other character is uppercased.  The Boolean argument records
whether the previous character was a letter. -/
def pyTitleAux : Bool → List Char → List Char
  | _, [] => []
  | prevAlpha, c :: cs =>
    (if prevAlpha then pyLowerChar c else pyUpperChar c) :: pyTitleAux (pyIsAlpha c) cs

/-- Python `str.strip` on a character list. -/
def pyStripL (l : List Char) : List Char :=
  ((l.dropWhile isPyWs).reverse.dropWhile isPyWs).reverse

/-- Python `str.split(',')` on a character list: every comma is a separator and
empty pieces are kept. -/
def splitCommaAux : List Char → List Char → List (List Char)
  | [], acc => [acc.reverse]
  | c :: t, acc => if c == ',' then acc.reverse :: splitCommaAux t [] else splitCommaAux t (c :: acc)

/-- Python `str.lower`. -/
def pyLower (s : String) : String := ⟨pyLowerL s.data⟩

/-- Python `str.strip`. -/
def pyStrip (s : String) : String := ⟨pyStripL s.data⟩

/-- Python `str.title`. -/
def pyTitle (s : String) : String := ⟨pyTitleAux false s.data⟩

/-- Python `str.split(',')`. -/
def pySplitComma (s : String) : List String :=
  (splitCommaAux s.data []).map (fun l => ⟨l⟩)

/-- Case-insensitive substring containment (both sides lowercased). -/
def containsCI (hay sub : String) : Bool :=
  hasSub (pyLowerL hay.data) (pyLowerL sub.data)

/-- Python `', '.join`. -/
def joinComma : List String → String
  | [] => ""
  | [w] => w
  | w :: ws => w ++ ", " ++ joinComma ws

/-- A single-quote character as a string (apostrophe, ASCII 39). -/
def apos : String := ⟨[Char.ofNat 39]⟩

/-- The off-topic marker list of `is_off_topic` (source lines 113-118). -/
def off_topic_keywords : List String :=
  ["weather", "news", "joke", "story", "recipe", "music", "movie", "game",
   "sports", "politics", "religion", "health", "medical", "code", "programming",
   "math", "calculate", "translate", "how to", "what is", "who is", "when is",
   "where is", "why is", "help me", "can you", "tell me about", "explain"]

/-- The work-context marker list of `is_off_topic` (source line 120). -/
def work_keywords : List String :=
  ["work", "job", "office", "document", "word", "term", "memo", "report", "department"]

/-- Topic Guard (source lines 111-126): the lowercased input contains at least
one off-topic marker and no work marker. -/
def is_off_topic (user_input : String) : Bool :=
  let input_lower := pyLowerL user_input.data
  (off_topic_keywords.any (fun keyword => hasSub input_lower keyword.data)) &&
  !(work_keywords.any (fun keyword => hasSub input_lower keyword.data))

/-- The valid classification labels (source line 176). -/
def classification_options : List String := ["Internal", "Public", "Confidential"]

/-- One record of `classified_words` (source lines 251-256). -/
structure ClassifiedWord where
  word : String
  classification : String
  department : String
  timestamp : String
deriving DecidableEq, Repr

/-- One entry of `chat_history`. -/
structure ChatMessage where
  role : String
  content : String
deriving DecidableEq, Repr

/-- The session state (source lines 17-28; `ready_for_download` is created on
first use at line 277 and modelled with default `false`). -/
structure Session where
  conversation_stage : String
  user_department : String
  collected_words : List String
  pending_classification : List String
  classified_words : List ClassifiedWord
  chat_history : List ChatMessage
  ready_for_download : Bool
deriving DecidableEq, Repr

/-- The freshly initialized session (source lines 17-28). -/
def initialSession : Session :=
  { conversation_stage := "initial", user_department := "",
    collected_words := [], pending_classification := [],
    classified_words := [], chat_history := [],
    ready_for_download := false }

/-- Fixed refusal for off-topic input outside the initial stage (line 214). -/
def refusal : String :=
  "I" ++ apos ++ "m sorry, I can only help with collecting and classifying workplace keywords for document management. Please tell me about the words you commonly use in your work."

/-- Refusal used for off-topic input while still in the initial stage (line 220). -/
def initialRefusal : String :=
  "I" ++ apos ++ "m sorry, I can only help with collecting and classifying workplace keywords for document management. What department do you work in? (e.g., HR, Finance, IT, Marketing, etc.)"

/-- Prompt emitted after the department is recorded (line 224). -/
def deptPrompt (department : String) : String :=
  "Great! I see you work in " ++ department ++ ". As a " ++ department ++
  " employee, what are some words or terms you often write or use in your work? For example: " ++
  apos ++ "memo" ++ apos ++ ", " ++ apos ++ "report" ++ apos ++ ", " ++ apos ++ "evaluation" ++
  apos ++ ", " ++ apos ++ "policy" ++ apos ++ ", etc. Please list them separated by commas."

/-- Prompt starting the classification round (line 239). -/
def classifyStartPrompt (words : List String) (current_word : String) : String :=
  "Thank you! I collected these words: " ++ joinComma words ++ "\n\nNow, let" ++ apos ++
  "s classify them. How would you classify the word " ++ apos ++ current_word ++ apos ++
  "? Please choose:\n\n1. **Internal** - Used within the organization only\n2. **Public** - Can be shared publicly\n3. **Confidential** - Sensitive information\n\nPlease type: Internal, Public, or Confidential"

/-- Re-prompt when no usable words were extracted (line 241). -/
def collectReprompt : String :=
  "Please provide work-related words or terms you commonly use, separated by commas. For example: " ++
  apos ++ "memo, report, evaluation, meeting" ++ apos

/-- Confirmation plus prompt for the next pending word (line 262). -/
def confirmNextPrompt (current_word classification next_word : String) : String :=
  "✅ " ++ apos ++ current_word ++ apos ++ " classified as " ++ classification ++
  ".\n\nNext word: " ++ apos ++ next_word ++ apos ++
  " - How would you classify this? (Internal/Public/Confidential)"

/-- Menu emitted once the queue is drained (line 264). -/
def allDoneMenu : String :=
  "🎉 All words classified! Would you like to:\n\n1. Add more words\n2. Download the results\n3. Start over\n\nType " ++
  apos ++ "more" ++ apos ++ ", " ++ apos ++ "download" ++ apos ++ ", or " ++ apos ++ "restart" ++ apos

/-- Re-prompt for an invalid classification label (line 267). -/
def invalidLabelPrompt (current_word : String) : String :=
  "Please choose a valid classification for " ++ apos ++ current_word ++ apos ++
  ": Internal, Public, or Confidential"

/-- Prompt after choosing to add more words (line 273). -/
def morePrompt : String :=
  "Please provide more words you commonly use, separated by commas:"

/-- Confirmation after the download command (line 276). -/
def downloadMsg : String :=
  "📁 Preparing your downloads...\n\nYour classified keywords are ready for download!"

/-- Help text for an unrecognized final option (line 285). -/
def helpText : String :=
  "Please type " ++ apos ++ "more" ++ apos ++ " to add more words, " ++ apos ++ "download" ++
  apos ++ " to get your results, or " ++ apos ++ "restart" ++ apos ++ " to begin again."

/-- Catch-all for an unknown stage value (line 288). -/
def unknownStageFallback : String :=
  "I" ++ apos ++ "m sorry, I can only help with collecting and classifying workplace keywords for document management."

/-- The structured-record (JSON) export payload (source lines 319-323). -/
structure JsonExport where
  department : String
  collection_date : String
  classified_words : List ClassifiedWord
deriving DecidableEq, Repr

/-- One export side effect: the tabular (Excel) artifact holds the records in
order as rows (source lines 89-98), the structured artifact is the JSON payload
(source lines 100-109). -/
inductive ExportArtifact
  | excel (rows : List ClassifiedWord)
  | json (payload : JsonExport)
deriving DecidableEq, Repr

/-- How a processed turn ended: a scripted response appended to the history, a
restart (the source calls `st.rerun()` before any response is produced, line
283), or a crash (`bot_response` is read while unbound, line 291). -/
inductive TurnOutcome
  | responded (message : String)
  | restarted
  | crashed
deriving DecidableEq, Repr

/-- Result of processing one utterance: the new session, how the turn ended,
and the export side effects performed during the turn. -/
structure StepResult where
  session : Session
  outcome : TurnOutcome
  exports : List ExportArtifact
deriving DecidableEq, Repr

/-- End a turn with a scripted response (source line 291 appends it). -/
def respond (s : Session) (message : String) : StepResult :=
  { session := { s with chat_history := s.chat_history ++ [{ role := "assistant", content := message }] },
    outcome := TurnOutcome.responded message,
    exports := [] }

/-- One turn of the conversation core: the body of `if user_input and model:`
(source lines 208-294), with `now` standing for `datetime.now().isoformat()`.
The user message is appended to the history first (line 210); the off-topic
short-circuit, the four stage branches and the unknown-stage catch-all follow
the source exactly.  In the `classify_words` branch with an empty queue the
source assigns no `bot_response` and the turn dies with a NameError at line
291: that turn is marked `crashed` (the session keeps the mutations already
made, i.e. the appended user message). -/
def processUtterance (s0 : Session) (user_input : String) (now : String) : StepResult :=
  let s := { s0 with chat_history := s0.chat_history ++ [{ role := "user", content := user_input }] }
  if is_off_topic user_input = true ∧ s.conversation_stage ≠ "initial" then
    respond s refusal
  else if s.conversation_stage = "initial" then
    if is_off_topic user_input = true then
      respond s initialRefusal
    else
      respond { s with user_department := user_input, conversation_stage := "collect_words" }
        (deptPrompt user_input)
  else if s.conversation_stage = "collect_words" then
    match ((pySplitComma user_input).map pyStrip).filter (fun word => 2 < word.length) with
    | [] => respond s collectReprompt
    | w :: ws =>
      if is_off_topic user_input = true then
        respond s collectReprompt
      else
        respond { s with collected_words := s.collected_words ++ (w :: ws),
                         pending_classification := w :: ws,
                         conversation_stage := "classify_words" }
          (classifyStartPrompt (w :: ws) w)
  else if s.conversation_stage = "classify_words" then
    match s.pending_classification with
    | [] => { session := s, outcome := TurnOutcome.crashed, exports := [] }
    | current_word :: rest =>
      let classification := pyTitle (pyStrip user_input)
      if classification ∈ classification_options then
        let record : ClassifiedWord :=
          { word := current_word, classification := classification,
            department := s.user_department, timestamp := now }
        let s2 := { s with classified_words := s.classified_words ++ [record],
                           pending_classification := rest }
        match rest with
        | next_word :: _ =>
          respond s2 (confirmNextPrompt current_word classification next_word)
        | [] =>
          respond { s2 with conversation_stage := "final_options" } allDoneMenu
      else
        respond s (invalidLabelPrompt current_word)
  else if s.conversation_stage = "final_options" then
    let option := pyStrip (pyLower user_input)
    if hasSub option.data "more".data = true then
      respond { s with conversation_stage := "collect_words" } morePrompt
    else if hasSub option.data "download".data = true then
      respond { s with ready_for_download := true } downloadMsg
    else if hasSub option.data "restart".data = true then
      { session := { conversation_stage := "initial", user_department := "",
                     collected_words := [], pending_classification := [],
                     classified_words := [], chat_history := [],
                     ready_for_download := s.ready_for_download },
        outcome := TurnOutcome.restarted,
        exports := [] }
    else
      respond s helpText
  else
    respond s unknownStageFallback

/-- Iterated processing of a list of (utterance, clock) turns. -/
def processList (s : Session) (turns : List (String × String)) : Session :=
  turns.foldl (fun cur turn => (processUtterance cur turn.1 turn.2).session) s

/-- The sidebar download section exists exactly when `classified_words` is
non-empty (source line 309). -/
def downloadSectionAvailable (s : Session) : Bool :=
  !s.classified_words.isEmpty

/-- The sidebar "Generate Downloads" button handler (source lines 312-324): it
saves the tabular artifact from `classified_words` and the structured artifact
built from department, collection date and the same records. -/
def generateDownloads (s : Session) (now : String) : List ExportArtifact :=
  [ExportArtifact.excel s.classified_words,
   ExportArtifact.json { department := s.user_department, collection_date := now,
                         classified_words := s.classified_words }]

/-- All suffixes of a character list, longest first (down to `[]`). -/
def sfx : List Char → List (List Char)
  | [] => [[]]
  | c :: t => (c :: t) :: sfx t

/-- `noSpill m si` certifies that the pattern `m` cannot match at the start of
`si` padded on the right with whitespace: either `m` fits inside `si` and
fails there, or `m` overhangs and the overhang contains a non-whitespace
character (which no whitespace padding can provide). -/
def noSpill (m si : List Char) : Bool :=
  if m.length ≤ si.length then !(leadMatch m si)
  else !(leadMatch (m.take si.length) si) || (m.drop si.length).any (fun c => !isPyWs c)

/-- The lowercase spellings of the three valid classification labels. -/
def labelWords : List (List Char) :=
  ["internal".data, "public".data, "confidential".data]

/-! ### Sample sessions used to instantiate the theorems on concrete inputs -/

/-- A session sitting in the word-collection stage. -/
def sampleCollect : Session :=
  { conversation_stage := "collect_words", user_department := "HR",
    collected_words := [], pending_classification := [],
    classified_words := [], chat_history := [], ready_for_download := false }

/-- A session in the classification stage with one pending word. -/
def sampleClassify : Session :=
  { conversation_stage := "classify_words", user_department := "HR",
    collected_words := ["memo"], pending_classification := ["memo"],
    classified_words := [], chat_history := [], ready_for_download := false }

/-- A session in the classification stage whose queue was emptied externally. -/
def sampleEmptyQueue : Session :=
  { conversation_stage := "classify_words", user_department := "HR",
    collected_words := ["memo"], pending_classification := [],
    classified_words := [], chat_history := [], ready_for_download := false }

/-- A session in the classification stage with three pending words. -/
def sampleQueue : Session :=
  { conversation_stage := "classify_words", user_department := "Finance",
    collected_words := ["invoice", "ledger", "policy"],
    pending_classification := ["invoice", "ledger", "policy"],
    classified_words := [], chat_history := [], ready_for_download := false }

/-- A session in the final-options stage with one classified record. -/
def sampleFinal : Session :=
  { conversation_stage := "final_options", user_department := "Finance",
    collected_words := ["invoice"], pending_classification := [],
    classified_words := [{ word := "invoice", classification := "Internal",
                           department := "Finance", timestamp := "2024-01-15T10:30:00" }],
    chat_history := [], ready_for_download := false }

/-! ### C2: off-topic frame property -/

/-- C2: for every utterance and every session whose stage is not "initial", if
`is_off_topic` holds then the turn leaves `conversation_stage`,
`collected_words`, `pending_classification` and `classified_words` unchanged
and responds with the fixed refusal string. -/
theorem off_topic_frame (s : Session) (u t : String)
    (hstage : s.conversation_stage ≠ "initial") (hoff : is_off_topic u = true) :
    (processUtterance s u t).session.conversation_stage = s.conversation_stage ∧
    (processUtterance s u t).session.collected_words = s.collected_words ∧
    (processUtterance s u t).session.pending_classification = s.pending_classification ∧
    (processUtterance s u t).session.classified_words = s.classified_words ∧
    (processUtterance s u t).outcome = TurnOutcome.responded refusal := by
  simp [processUtterance, respond, hoff, hstage]

/-- Witness for C2: the off-topic utterance "weather" in the collection stage
leaves all data untouched and draws the fixed refusal. -/
theorem off_topic_frame_witness :
    sampleCollect.conversation_stage ≠ "initial" ∧ is_off_topic "weather" = true ∧
    ((processUtterance sampleCollect "weather" "T").session.conversation_stage =
        sampleCollect.conversation_stage ∧
      (processUtterance sampleCollect "weather" "T").session.collected_words =
        sampleCollect.collected_words ∧
      (processUtterance sampleCollect "weather" "T").session.pending_classification =
        sampleCollect.pending_classification ∧
      (processUtterance sampleCollect "weather" "T").session.classified_words =
        sampleCollect.classified_words ∧
      (processUtterance sampleCollect "weather" "T").outcome = TurnOutcome.responded refusal) :=
  ⟨by decide, by decide, off_topic_frame sampleCollect "weather" "T" (by decide) (by decide)⟩

/-! ### C4: empty queue in the classification stage -/

/-- C4: with `pending_classification` empty in stage "classify_words" the
source assigns no `bot_response` in any branch, so line 291 reads an unbound
variable and the turn dies; no fallback message is emitted and no transition
happens.  This theorem evaluates the step at the failing input. -/
theorem classify_empty_queue_crash :
    (processUtterance sampleEmptyQueue "Internal" "T").outcome = TurnOutcome.crashed ∧
    (processUtterance sampleEmptyQueue "Internal" "T").session.conversation_stage =
      "classify_words" ∧
    (processUtterance sampleEmptyQueue "Internal" "T").session.classified_words = [] ∧
    (processUtterance sampleEmptyQueue "Internal" "T").outcome ≠
      TurnOutcome.responded unknownStageFallback := by
  decide

/-! ### C5: word filtering in the collection stage -/

/-- C5: in stage "collect_words" the utterance is split on commas, each piece
is stripped, and exactly the pieces of stripped length > 2 are kept in input
order: they are appended to `collected_words` and become the pending queue
(when at least one survives; otherwise nothing changes and the stage stays).
In particular "a, bb, ccc, dddd" keeps exactly ["ccc", "dddd"]. -/
theorem collect_words_filtering (s : Session) (u t : String)
    (hstage : s.conversation_stage = "collect_words") (hoff : is_off_topic u = false) :
    (((pySplitComma u).map pyStrip).filter (fun w => 2 < w.length) ≠ [] →
      (processUtterance s u t).session.collected_words =
        s.collected_words ++ ((pySplitComma u).map pyStrip).filter (fun w => 2 < w.length) ∧
      (processUtterance s u t).session.pending_classification =
        ((pySplitComma u).map pyStrip).filter (fun w => 2 < w.length) ∧
      (processUtterance s u t).session.conversation_stage = "classify_words") ∧
    (((pySplitComma u).map pyStrip).filter (fun w => 2 < w.length) = [] →
      (processUtterance s u t).session.collected_words = s.collected_words ∧
      (processUtterance s u t).session.pending_classification = s.pending_classification ∧
      (processUtterance s u t).session.conversation_stage = "collect_words") ∧
    ((pySplitComma "a, bb, ccc, dddd").map pyStrip).filter (fun w => 2 < w.length) =
      ["ccc", "dddd"] := by
  refine ⟨?_, ?_, by decide⟩ <;>
    cases hk : ((pySplitComma u).map pyStrip).filter (fun w => 2 < w.length) with
  | nil => simp [processUtterance, respond, hstage, hoff, hk]
  | cons w ws => simp [processUtterance, respond, hstage, hoff, hk]

/-- Witness for C5: concrete run on "a, bb, ccc, dddd" from the collection
stage. -/
theorem collect_words_filtering_witness :
    sampleCollect.conversation_stage = "collect_words" ∧
    is_off_topic "a, bb, ccc, dddd" = false ∧
    (((pySplitComma "a, bb, ccc, dddd").map pyStrip).filter (fun w => 2 < w.length) ≠ [] →
      (processUtterance sampleCollect "a, bb, ccc, dddd" "T").session.collected_words =
        sampleCollect.collected_words ++
          ((pySplitComma "a, bb, ccc, dddd").map pyStrip).filter (fun w => 2 < w.length) ∧
      (processUtterance sampleCollect "a, bb, ccc, dddd" "T").session.pending_classification =
        ((pySplitComma "a, bb, ccc, dddd").map pyStrip).filter (fun w => 2 < w.length) ∧
      (processUtterance sampleCollect "a, bb, ccc, dddd" "T").session.conversation_stage =
        "classify_words") ∧
    (((pySplitComma "a, bb, ccc, dddd").map pyStrip).filter (fun w => 2 < w.length) = [] →
      (processUtterance sampleCollect "a, bb, ccc, dddd" "T").session.collected_words =
        sampleCollect.collected_words ∧
      (processUtterance sampleCollect "a, bb, ccc, dddd" "T").session.pending_classification =
        sampleCollect.pending_classification ∧
      (processUtterance sampleCollect "a, bb, ccc, dddd" "T").session.conversation_stage =
        "collect_words") ∧
    ((pySplitComma "a, bb, ccc, dddd").map pyStrip).filter (fun w => 2 < w.length) =
      ["ccc", "dddd"] :=
  ⟨by decide, by decide,
    collect_words_filtering sampleCollect "a, bb, ccc, dddd" "T" (by decide) (by decide)⟩

/-! ### C7: invalid classification labels change nothing, arbitrarily often -/

/-- One invalid-label attempt in the classification stage (or an off-topic
utterance there, which is short-circuited even earlier) leaves the stage, the
queue, the collected words, the classified records and the department
unchanged. -/
lemma invalid_label_step (s : Session) (u t : String)
    (hstage : s.conversation_stage = "classify_words")
    (hpend : s.pending_classification ≠ [])
    (hinv : pyTitle (pyStrip u) ∉ classification_options) :
    (processUtterance s u t).session.conversation_stage = s.conversation_stage ∧
    (processUtterance s u t).session.pending_classification = s.pending_classification ∧
    (processUtterance s u t).session.collected_words = s.collected_words ∧
    (processUtterance s u t).session.classified_words = s.classified_words ∧
    (processUtterance s u t).session.user_department = s.user_department := by
  by_cases hoff : is_off_topic u = true
  · simp [processUtterance, respond, hstage, hoff]
  · cases hp : s.pending_classification with
    | nil => exact absurd hp hpend
    | cons w rest =>
      simp [processUtterance, respond, hstage, hp, hoff, hinv]

/-- C7: in stage "classify_words" with a non-empty queue, any number of
consecutive utterances whose strip-and-titlecase form is not a valid label
leaves `conversation_stage`, `pending_classification`, `collected_words` and
`classified_words` exactly as they were; no record is written. -/
theorem invalid_label_idempotent (s : Session) (turns : List (String × String))
    (hstage : s.conversation_stage = "classify_words")
    (hpend : s.pending_classification ≠ [])
    (hinv : ∀ p ∈ turns, pyTitle (pyStrip p.1) ∉ classification_options) :
    (processList s turns).conversation_stage = s.conversation_stage ∧
    (processList s turns).pending_classification = s.pending_classification ∧
    (processList s turns).collected_words = s.collected_words ∧
    (processList s turns).classified_words = s.classified_words := by
  induction turns generalizing s with
  | nil => exact ⟨rfl, rfl, rfl, rfl⟩
  | cons p ps ih =>
    have hstep := invalid_label_step s p.1 p.2 hstage hpend (hinv p (by simp))
    have hnext := ih (processUtterance s p.1 p.2).session
      (by rw [hstep.1, hstage])
      (by rw [hstep.2.1]; exact hpend)
      (fun q hq => hinv q (by simp [hq]))
    have hl : processList s (p :: ps) = processList (processUtterance s p.1 p.2).session ps := rfl
    rw [hl]
    exact ⟨hnext.1.trans hstep.1, hnext.2.1.trans hstep.2.1,
      hnext.2.2.1.trans hstep.2.2.1, hnext.2.2.2.trans hstep.2.2.2.1⟩

/-- Witness for C7: two consecutive invalid attempts ("blah", then "maybe")
leave the classification session untouched. -/
theorem invalid_label_idempotent_witness :
    sampleClassify.conversation_stage = "classify_words" ∧
    sampleClassify.pending_classification ≠ [] ∧
    (∀ p ∈ [("blah", "T1"), ("maybe", "T2")],
      pyTitle (pyStrip (Prod.fst p)) ∉ classification_options) ∧
    ((processList sampleClassify [("blah", "T1"), ("maybe", "T2")]).conversation_stage =
        sampleClassify.conversation_stage ∧
      (processList sampleClassify [("blah", "T1"), ("maybe", "T2")]).pending_classification =
        sampleClassify.pending_classification ∧
      (processList sampleClassify [("blah", "T1"), ("maybe", "T2")]).collected_words =
        sampleClassify.collected_words ∧
      (processList sampleClassify [("blah", "T1"), ("maybe", "T2")]).classified_words =
        sampleClassify.classified_words) :=
  ⟨by decide, by decide, by decide,
    invalid_label_idempotent sampleClassify [("blah", "T1"), ("maybe", "T2")]
      (by decide) (by decide) (by decide)⟩

/-! ### C9: the department is written only in the initial stage -/

/-- C9: `user_department` is assigned exactly in the "initial" stage (to the
utterance that passes the Topic Guard there); in any other stage a turn either
leaves it unchanged or is the explicit restart reset, which returns the whole
session to its defaults (so the department becomes the empty default). -/
theorem department_assignment (s : Session) (u t : String) :
    (s.conversation_stage = "initial" → is_off_topic u = false →
      (processUtterance s u t).session.user_department = u) ∧
    (s.conversation_stage ≠ "initial" →
      (processUtterance s u t).session.user_department = s.user_department ∨
      ((processUtterance s u t).outcome = TurnOutcome.restarted ∧
        (processUtterance s u t).session.user_department = "")) := by
  constructor
  · intro hin hoff
    simp [processUtterance, respond, hin, hoff]
  · intro hne
    by_cases hoff : is_off_topic u = true
    · left; simp [processUtterance, respond, hoff, hne]
    · by_cases hc : s.conversation_stage = "collect_words"
      · left
        cases hk : ((pySplitComma u).map pyStrip).filter (fun w => 2 < w.length) with
        | nil => simp [processUtterance, respond, hne, hc, hoff, hk]
        | cons w ws => simp [processUtterance, respond, hne, hc, hoff, hk]
      · by_cases hcl : s.conversation_stage = "classify_words"
        · left
          cases hp : s.pending_classification with
          | nil => simp [processUtterance, hne, hc, hcl, hoff, hp]
          | cons w rest =>
            by_cases hv : pyTitle (pyStrip u) ∈ classification_options
            · cases rest <;> simp [processUtterance, respond, hne, hc, hcl, hoff, hp, hv]
            · simp [processUtterance, respond, hne, hc, hcl, hoff, hp, hv]
        · by_cases hf : s.conversation_stage = "final_options"
          · by_cases hm : hasSub (pyStrip (pyLower u)).data "more".data = true
            · left; simp [processUtterance, respond, hne, hc, hcl, hf, hoff, hm]
            · by_cases hd : hasSub (pyStrip (pyLower u)).data "download".data = true
              · left; simp [processUtterance, respond, hne, hc, hcl, hf, hoff, hm, hd]
              · by_cases hr : hasSub (pyStrip (pyLower u)).data "restart".data = true
                · right; simp [processUtterance, hne, hc, hcl, hf, hoff, hm, hd, hr]
                · left; simp [processUtterance, respond, hne, hc, hcl, hf, hoff, hm, hd, hr]
          · left; simp [processUtterance, respond, hne, hc, hcl, hf, hoff]

/-- Witness for C9: a turn in the collection stage keeps the department. -/
theorem department_assignment_witness :
    sampleCollect.conversation_stage ≠ "initial" ∧
    ((processUtterance sampleCollect "memo, report" "T").session.user_department =
        sampleCollect.user_department ∨
      ((processUtterance sampleCollect "memo, report" "T").outcome = TurnOutcome.restarted ∧
        (processUtterance sampleCollect "memo, report" "T").session.user_department = "")) :=
  ⟨by decide, (department_assignment sampleCollect "memo, report" "T").2 (by decide)⟩

/-! ### C10: stored classification labels are titlecase-normalized -/

/-- C10: after any turn, every record of `classified_words` either was already
present or is the record appended by that turn, whose classification field is
the strip-and-titlecase normalization of the utterance and is one of
"Internal", "Public", "Confidential"; e.g. input "INTERNAL" is stored as
"Internal". -/
theorem classified_label_normalized (s : Session) (u t : String) :
    (∀ r ∈ (processUtterance s u t).session.classified_words,
      r ∈ s.classified_words ∨
        (r.classification = pyTitle (pyStrip u) ∧
          r.classification ∈ classification_options)) ∧
    pyTitle (pyStrip "INTERNAL") = "Internal" := by
  refine ⟨?_, by decide⟩
  intro r hr
  by_cases hg : is_off_topic u = true ∧ s.conversation_stage ≠ "initial"
  · simp [processUtterance, respond, hg] at hr; exact Or.inl hr
  · by_cases hi : s.conversation_stage = "initial"
    · by_cases hoff : is_off_topic u = true <;>
        simp [processUtterance, respond, hg, hi, hoff] at hr <;> exact Or.inl hr
    · have hoff : is_off_topic u = false := by
        cases h : is_off_topic u
        · rfl
        · exact absurd ⟨h, hi⟩ hg
      by_cases hc : s.conversation_stage = "collect_words"
      · cases hk : ((pySplitComma u).map pyStrip).filter (fun w => 2 < w.length) with
        | nil => simp [processUtterance, respond, hi, hc, hoff, hk] at hr; exact Or.inl hr
        | cons w ws => simp [processUtterance, respond, hi, hc, hoff, hk] at hr; exact Or.inl hr
      · by_cases hcl : s.conversation_stage = "classify_words"
        · cases hp : s.pending_classification with
          | nil => simp [processUtterance, hi, hc, hcl, hoff, hp] at hr; exact Or.inl hr
          | cons w rest =>
            by_cases hv : pyTitle (pyStrip u) ∈ classification_options
            · cases rest with
              | nil =>
                simp [processUtterance, respond, hi, hc, hcl, hoff, hp, hv] at hr
                rcases hr with hr | hr
                · exact Or.inl hr
                · rw [hr]; exact Or.inr ⟨rfl, hv⟩
              | cons n ns =>
                simp [processUtterance, respond, hi, hc, hcl, hoff, hp, hv] at hr
                rcases hr with hr | hr
                · exact Or.inl hr
                · rw [hr]; exact Or.inr ⟨rfl, hv⟩
            · simp [processUtterance, respond, hi, hc, hcl, hoff, hp, hv] at hr
              exact Or.inl hr
        · by_cases hf : s.conversation_stage = "final_options"
          · by_cases hm : hasSub (pyStrip (pyLower u)).data "more".data = true
            · simp [processUtterance, respond, hi, hc, hcl, hf, hoff, hm] at hr; exact Or.inl hr
            · by_cases hd : hasSub (pyStrip (pyLower u)).data "download".data = true
              · simp [processUtterance, respond, hi, hc, hcl, hf, hoff, hm, hd] at hr
                exact Or.inl hr
              · by_cases hrs : hasSub (pyStrip (pyLower u)).data "restart".data = true
                · simp [processUtterance, hi, hc, hcl, hf, hoff, hm, hd, hrs] at hr
                · simp [processUtterance, respond, hi, hc, hcl, hf, hoff, hm, hd, hrs] at hr
                  exact Or.inl hr
          · simp [processUtterance, respond, hi, hc, hcl, hf, hoff] at hr; exact Or.inl hr

/-- Witness for C10: classifying "memo" with input "internal" stores the
record with the normalized label "Internal". -/
theorem classified_label_normalized_witness :
    ({ word := "memo", classification := "Internal", department := "HR",
       timestamp := "T" } : ClassifiedWord) ∈
      (processUtterance sampleClassify "internal" "T").session.classified_words ∧
    (({ word := "memo", classification := "Internal", department := "HR",
        timestamp := "T" } : ClassifiedWord) ∈ sampleClassify.classified_words ∨
      (({ word := "memo", classification := "Internal", department := "HR",
          timestamp := "T" } : ClassifiedWord).classification =
          pyTitle (pyStrip "internal") ∧
        ({ word := "memo", classification := "Internal", department := "HR",
           timestamp := "T" } : ClassifiedWord).classification ∈ classification_options)) :=
  ⟨by decide,
    (classified_label_normalized sampleClassify "internal" "T").1
      { word := "memo", classification := "Internal", department := "HR", timestamp := "T" }
      (by decide)⟩

/-! ### C8: the restart command -/

/-- C8 counterexample: "more restart" contains "restart", yet in final_options
the `more` branch is tested first (source line 272), so the turn moves to
"collect_words" and clears nothing — the claim's reset does not happen. -/
theorem restart_more_counterexample :
    hasSub (pyStrip (pyLower "more restart")).data "restart".data = true ∧
    (processUtterance sampleFinal "more restart" "T").session.conversation_stage =
      "collect_words" ∧
    (processUtterance sampleFinal "more restart" "T").session.user_department = "Finance" ∧
    (processUtterance sampleFinal "more restart" "T").session.collected_words = ["invoice"] ∧
    (processUtterance sampleFinal "more restart" "T").session.classified_words =
      sampleFinal.classified_words := by
  decide

/-- C8 (amended): in final_options, an utterance that is not off-topic and
whose lowercased-stripped form contains "restart" but neither "more" nor
"download" resets the whole session: department, collected words, pending
queue, classified records and chat history are cleared and the stage returns
to "initial" (only the unrelated `ready_for_download` flag survives, since the
source deletes only the six listed keys, lines 280-282). -/
theorem restart_reset (s : Session) (u t : String)
    (hstage : s.conversation_stage = "final_options")
    (hoff : is_off_topic u = false)
    (hmore : hasSub (pyStrip (pyLower u)).data "more".data = false)
    (hdl : hasSub (pyStrip (pyLower u)).data "download".data = false)
    (hrs : hasSub (pyStrip (pyLower u)).data "restart".data = true) :
    (processUtterance s u t).session =
      { conversation_stage := "initial", user_department := "", collected_words := [],
        pending_classification := [], classified_words := [], chat_history := [],
        ready_for_download := s.ready_for_download } ∧
    (processUtterance s u t).outcome = TurnOutcome.restarted := by
  simp [processUtterance, hstage, hoff, hmore, hdl, hrs]

/-- Witness for C8: the plain "restart" command resets the sample session. -/
theorem restart_reset_witness :
    sampleFinal.conversation_stage = "final_options" ∧
    is_off_topic "restart" = false ∧
    hasSub (pyStrip (pyLower "restart")).data "more".data = false ∧
    hasSub (pyStrip (pyLower "restart")).data "download".data = false ∧
    hasSub (pyStrip (pyLower "restart")).data "restart".data = true ∧
    ((processUtterance sampleFinal "restart" "T").session =
      { conversation_stage := "initial", user_department := "", collected_words := [],
        pending_classification := [], classified_words := [], chat_history := [],
        ready_for_download := sampleFinal.ready_for_download } ∧
    (processUtterance sampleFinal "restart" "T").outcome = TurnOutcome.restarted) :=
  ⟨by decide, by decide, by decide, by decide, by decide,
    restart_reset sampleFinal "restart" "T" (by decide) (by decide) (by decide)
      (by decide) (by decide)⟩

/-! ### C3: what the download command actually does -/

/-- C3 counterexample: processing "download" in final_options performs no
export at all (it only sets the `ready_for_download` flag, source line 277),
and conversely the sidebar download section is available — and its button
produces both artifacts — for a session that never issued a download command
(its `ready_for_download` is still false). -/
theorem download_no_export_counterexample :
    (processUtterance sampleFinal "download" "T").exports = [] ∧
    (processUtterance sampleFinal "download" "T").session.ready_for_download = true ∧
    downloadSectionAvailable sampleFinal = true ∧
    sampleFinal.ready_for_download = false ∧
    generateDownloads sampleFinal "T" ≠ [] := by
  decide

/-- C3 (amended): in final_options an utterance whose lowercased-stripped form
contains "download" (and not "more") only sets `ready_for_download`, emits the
confirmation message and performs no export; the artifacts — the tabular rows
and the structured record built from `classified_words` and the department —
are produced by the sidebar Generate-Downloads handler, which is available
whenever `classified_words` is non-empty, independently of any download
command. -/
theorem download_flag_and_sidebar_export (s : Session) (u t now : String)
    (hstage : s.conversation_stage = "final_options")
    (hoff : is_off_topic u = false)
    (hmore : hasSub (pyStrip (pyLower u)).data "more".data = false)
    (hdl : hasSub (pyStrip (pyLower u)).data "download".data = true) :
    (processUtterance s u t).exports = [] ∧
    (processUtterance s u t).session.ready_for_download = true ∧
    (processUtterance s u t).outcome = TurnOutcome.responded downloadMsg ∧
    (processUtterance s u t).session.classified_words = s.classified_words ∧
    (processUtterance s u t).session.conversation_stage = "final_options" ∧
    generateDownloads s now =
      [ExportArtifact.excel s.classified_words,
       ExportArtifact.json { department := s.user_department, collection_date := now,
                             classified_words := s.classified_words }] ∧
    downloadSectionAvailable s = !s.classified_words.isEmpty := by
  refine ⟨?_, ?_, ?_, ?_, ?_, rfl, rfl⟩ <;>
    simp [processUtterance, respond, hstage, hoff, hmore, hdl]

/-- Witness for C3: the "download" command on the sample final session. -/
theorem download_flag_and_sidebar_export_witness :
    sampleFinal.conversation_stage = "final_options" ∧
    is_off_topic "download" = false ∧
    hasSub (pyStrip (pyLower "download")).data "more".data = false ∧
    hasSub (pyStrip (pyLower "download")).data "download".data = true ∧
    ((processUtterance sampleFinal "download" "T").exports = [] ∧
      (processUtterance sampleFinal "download" "T").session.ready_for_download = true ∧
      (processUtterance sampleFinal "download" "T").outcome =
        TurnOutcome.responded downloadMsg ∧
      (processUtterance sampleFinal "download" "T").session.classified_words =
        sampleFinal.classified_words ∧
      (processUtterance sampleFinal "download" "T").session.conversation_stage =
        "final_options" ∧
      generateDownloads sampleFinal "N" =
        [ExportArtifact.excel sampleFinal.classified_words,
         ExportArtifact.json { department := sampleFinal.user_department,
                               collection_date := "N",
                               classified_words := sampleFinal.classified_words }] ∧
      downloadSectionAvailable sampleFinal = !sampleFinal.classified_words.isEmpty) :=
  ⟨by decide, by decide, by decide, by decide,
    download_flag_and_sidebar_export sampleFinal "download" "T" "N" (by decide) (by decide)
      (by decide) (by decide)⟩

/-! ### C6: characterization of the Topic Guard -/

/-- Every marker of both keyword lists is already lowercase, so lowering the
marker is the identity on it. -/
lemma keyword_lower_fixed :
    ∀ k ∈ off_topic_keywords ++ work_keywords, pyLowerL k.data = k.data := by
  intro k hk
  have hall : ((off_topic_keywords ++ work_keywords).all
      (fun k => decide (pyLowerL k.data = k.data))) = true := by decide
  exact of_decide_eq_true (List.all_eq_true.mp hall k hk)

/-- C6: `is_off_topic` (a pure function of the utterance alone) is true exactly
when the utterance contains at least one off-topic marker as a
case-insensitive substring and no work marker as a case-insensitive
substring. -/
theorem is_off_topic_spec (u : String) :
    is_off_topic u = true ↔
      ((∃ k ∈ off_topic_keywords, containsCI u k = true) ∧
        (∀ k ∈ work_keywords, containsCI u k = false)) := by
  simp only [is_off_topic, containsCI, Bool.and_eq_true, Bool.not_eq_true',
    List.any_eq_true, List.any_eq_false, Bool.not_eq_true]
  constructor
  · rintro ⟨⟨k, hk, hc⟩, hw⟩
    refine ⟨⟨k, hk, ?_⟩, fun k2 hk2 => ?_⟩
    · rw [keyword_lower_fixed k (List.mem_append_left _ hk)]; exact hc
    · rw [keyword_lower_fixed k2 (List.mem_append_right _ hk2)]; exact hw k2 hk2
  · rintro ⟨⟨k, hk, hc⟩, hw⟩
    refine ⟨⟨k, hk, ?_⟩, fun k2 hk2 => ?_⟩
    · rw [← keyword_lower_fixed k (List.mem_append_left _ hk)]; exact hc
    · rw [← keyword_lower_fixed k2 (List.mem_append_right _ hk2)]; exact hw k2 hk2

/-! ### C1 preparation: a valid-label utterance never trips the Topic Guard

The utterances accepted by the classification branch are (up to case and
surrounding whitespace) one of the three label words; none of the off-topic
markers can occur in such a string, so the off-topic short-circuit cannot fire
on them.  The lemmas below establish this. -/

/-- The first ASCII-pair lookup for the uppercase letter of a pair finds that
pair. -/
lemma asciiPairs_find_fst :
    ∀ p ∈ asciiPairs, asciiPairs.find? (fun q => q.1 == p.1) = some p := by
  intro p hp
  have hall : (asciiPairs.all
      (fun p => decide (asciiPairs.find? (fun q => q.1 == p.1) = some p))) = true := by decide
  exact of_decide_eq_true (List.all_eq_true.mp hall p hp)

/-- No ASCII pair has a lowercase letter as its uppercase component. -/
lemma asciiPairs_find_snd :
    ∀ p ∈ asciiPairs, asciiPairs.find? (fun q => q.1 == p.2) = none := by
  intro p hp
  have hall : (asciiPairs.all
      (fun p => decide (asciiPairs.find? (fun q => q.1 == p.2) = none))) = true := by decide
  exact of_decide_eq_true (List.all_eq_true.mp hall p hp)

/-- Lowercasing fixes whitespace characters. -/
lemma pyLowerChar_ws (c : Char) (h : isPyWs c = true) : pyLowerChar c = c := by
  have h6 : c = ' ' ∨ c = '\t' ∨ c = '\n' ∨ c = '\r' ∨ c = Char.ofNat 11 ∨ c = Char.ofNat 12 := by
    simpa [isPyWs, or_assoc] using h
  rcases h6 with h | h | h | h | h | h <;> subst h <;> decide

/-- Lowercasing is idempotent. -/
lemma pyLowerChar_idem (c : Char) : pyLowerChar (pyLowerChar c) = pyLowerChar c := by
  cases hf : asciiPairs.find? (fun p => p.1 == c) with
  | none =>
    have h1 : pyLowerChar c = c := by unfold pyLowerChar; rw [hf]
    rw [h1]
    exact h1
  | some p =>
    have hmem : p ∈ asciiPairs := List.mem_of_find?_eq_some hf
    have h1 : pyLowerChar c = p.2 := by unfold pyLowerChar; rw [hf]
    have h2 : pyLowerChar p.2 = p.2 := by
      unfold pyLowerChar; rw [asciiPairs_find_snd p hmem]
    rw [h1, h2]

/-- Lowercasing after uppercasing is plain lowercasing. -/
lemma pyLowerChar_upper (c : Char) : pyLowerChar (pyUpperChar c) = pyLowerChar c := by
  cases hf : asciiPairs.find? (fun p => p.2 == c) with
  | none =>
    have h1 : pyUpperChar c = c := by unfold pyUpperChar; rw [hf]
    rw [h1]
  | some p =>
    have hmem : p ∈ asciiPairs := List.mem_of_find?_eq_some hf
    have hp2 : (p.2 == c) = true := by
      have hx := List.find?_some hf
      simpa using hx
    have hpc : p.2 = c := eq_of_beq hp2
    have h1 : pyUpperChar c = p.1 := by unfold pyUpperChar; rw [hf]
    have h2 : pyLowerChar p.1 = p.2 := by
      unfold pyLowerChar; rw [asciiPairs_find_fst p hmem]
    have h3 : pyLowerChar p.2 = p.2 := by
      unfold pyLowerChar; rw [asciiPairs_find_snd p hmem]
    rw [h1, h2, ← hpc, h3]

/-- Lowercasing distributes over list concatenation. -/
lemma pyLowerL_append (a b : List Char) : pyLowerL (a ++ b) = pyLowerL a ++ pyLowerL b :=
  List.map_append pyLowerChar a b

/-- Lowercasing fixes an all-whitespace character list. -/
lemma pyLowerL_allWs (l : List Char) (h : l.all isPyWs = true) : pyLowerL l = l := by
  induction l with
  | nil => rfl
  | cons c t ih =>
    simp only [List.all_cons, Bool.and_eq_true] at h
    simp only [pyLowerL, List.map_cons] at ih ⊢
    rw [pyLowerChar_ws c h.1, ih h.2]

/-- Titlecasing never changes the lowercased spelling. -/
lemma pyLowerL_pyTitleAux (b : Bool) (l : List Char) :
    pyLowerL (pyTitleAux b l) = pyLowerL l := by
  induction l generalizing b with
  | nil => rfl
  | cons c t ih =>
    cases b with
    | false =>
      simp only [pyTitleAux, if_neg (by simp : ¬(false = true)), pyLowerL, List.map_cons]
      rw [pyLowerChar_upper]
      have := ih (pyIsAlpha c)
      simp only [pyLowerL] at this
      rw [this]
    | true =>
      simp only [pyTitleAux, pyLowerL, List.map_cons, eq_self_iff_true, if_true]
      rw [pyLowerChar_idem]
      have := ih (pyIsAlpha c)
      simp only [pyLowerL] at this
      rw [this]

/-- A pattern with a non-whitespace character never head-matches an
all-whitespace list. -/
lemma leadMatch_allWs_false (m : List Char) :
    ∀ s : List Char, m.any (fun c => !isPyWs c) = true → s.all isPyWs = true →
      leadMatch m s = false := by
  induction m with
  | nil => intro s hm _; simp at hm
  | cons a as ih =>
    intro s hm hs
    cases s with
    | nil => rfl
    | cons b bs =>
      simp only [List.all_cons, Bool.and_eq_true] at hs
      by_cases ha : isPyWs a = true
      · have has : as.any (fun c => !isPyWs c) = true := by
          simp only [List.any_cons, Bool.or_eq_true] at hm
          rcases hm with hm | hm
          · rw [ha] at hm; simp at hm
          · exact hm
        simp only [leadMatch]
        rw [ih bs has hs.2, Bool.and_false]
      · have hab : (a == b) = false := by
          apply beq_eq_false_iff_ne.mpr
          intro he
          rw [he, hs.1] at ha
          exact ha rfl
        simp only [leadMatch]
        rw [hab, Bool.false_and]

/-- A pattern with a non-whitespace character is not a substring of an
all-whitespace list. -/
lemma hasSub_allWs_false (m s : List Char) (hm : m.any (fun c => !isPyWs c) = true)
    (hs : s.all isPyWs = true) : hasSub s m = false := by
  induction s with
  | nil =>
    cases m with
    | nil => simp at hm
    | cons a as => rfl
  | cons c t ih =>
    simp only [hasSub]
    rw [leadMatch_allWs_false m (c :: t) hm hs]
    have ht : t.all isPyWs = true := by
      simp only [List.all_cons, Bool.and_eq_true] at hs
      exact hs.2
    rw [ih ht, Bool.or_self]

/-- Splitting a successful head-match along an append of the text. -/
lemma leadMatch_append_split (m s t : List Char) (h : leadMatch m (s ++ t) = true) :
    leadMatch (m.take s.length) s = true ∧ leadMatch (m.drop s.length) t = true := by
  induction s generalizing m with
  | nil => exact ⟨rfl, h⟩
  | cons b bs ih =>
    cases m with
    | nil => exact ⟨rfl, rfl⟩
    | cons a as =>
      simp only [List.cons_append, leadMatch, Bool.and_eq_true] at h
      obtain ⟨hab, hrest⟩ := h
      obtain ⟨h1, h2⟩ := ih as hrest
      refine ⟨?_, ?_⟩
      · rw [List.length_cons, List.take_succ_cons]
        simp only [leadMatch]
        rw [hab, h1]
        rfl
      · rw [List.length_cons, List.drop_succ_cons]
        exact h2

/-- A `noSpill` certificate rules out a head-match against the suffix padded
with whitespace on the right. -/
lemma leadMatch_pad_false (m si tws : List Char) (hns : noSpill m si = true)
    (htws : tws.all isPyWs = true) : leadMatch m (si ++ tws) = false := by
  cases h : leadMatch m (si ++ tws) with
  | false => rfl
  | true =>
    exfalso
    obtain ⟨h1, h2⟩ := leadMatch_append_split m si tws h
    unfold noSpill at hns
    by_cases hle : m.length ≤ si.length
    · rw [if_pos hle] at hns
      rw [List.take_of_length_le hle] at h1
      rw [h1] at hns
      simp at hns
    · rw [if_neg hle] at hns
      simp only [Bool.or_eq_true, Bool.not_eq_true'] at hns
      rcases hns with hns | hns
      · rw [h1] at hns; exact Bool.noConfusion hns
      · have := leadMatch_allWs_false (m.drop si.length) tws hns htws
        rw [h2] at this
        exact Bool.noConfusion this

/-- With `noSpill` certificates for every suffix of `wd`, the pattern is not a
substring of `wd` padded with whitespace on the right. -/
lemma hasSub_pad_false (wd : List Char) :
    ∀ tws m : List Char, tws.all isPyWs = true →
      m.any (fun c => !isPyWs c) = true →
      (sfx wd).all (fun si => noSpill m si) = true →
      hasSub (wd ++ tws) m = false := by
  induction wd with
  | nil =>
    intro tws m htws hm _
    simpa using hasSub_allWs_false m tws hm htws
  | cons c t ih =>
    intro tws m htws hm hns
    simp only [sfx, List.all_cons, Bool.and_eq_true] at hns
    have hfirst : leadMatch m ((c :: t) ++ tws) = false :=
      leadMatch_pad_false m (c :: t) tws hns.1 htws
    simp only [List.cons_append, hasSub, List.append_eq]
    simp only [List.cons_append] at hfirst
    rw [hfirst, ih tws m htws hm hns.2, Bool.or_self]

/-- Leading whitespace never contributes a match for a pattern starting with a
non-whitespace character. -/
lemma hasSub_ws_head (lws : List Char) :
    ∀ (s m : List Char), lws.all isPyWs = true →
      (∃ c mt, m = c :: mt ∧ isPyWs c = false) →
      hasSub (lws ++ s) m = hasSub s m := by
  induction lws with
  | nil => intro s m _ _; rfl
  | cons w lt ih =>
    intro s m hl hm
    simp only [List.all_cons, Bool.and_eq_true] at hl
    obtain ⟨c, mt, hmeq, hc⟩ := hm
    have hlm : leadMatch m (w :: (lt ++ s)) = false := by
      rw [hmeq]
      simp only [leadMatch]
      have hcw : (c == w) = false := by
        apply beq_eq_false_iff_ne.mpr
        intro he
        rw [he, hl.1] at hc
        exact Bool.noConfusion hc
      rw [hcw, Bool.false_and]
    simp only [List.cons_append, hasSub, List.append_eq]
    rw [hlm, ih s m hl.2 ⟨c, mt, hmeq, hc⟩, Bool.false_or]

/-- Everything `takeWhile isPyWs` keeps is whitespace. -/
lemma allWs_takeWhile (l : List Char) : (l.takeWhile isPyWs).all isPyWs = true := by
  rw [List.all_eq_true]
  intro x hx
  exact List.mem_takeWhile_imp hx

/-- Stripping decomposes a string into whitespace, the stripped core, and
whitespace. -/
lemma pyStripL_decomp (l : List Char) :
    ∃ lws tws, l = lws ++ (pyStripL l ++ tws) ∧
      lws.all isPyWs = true ∧ tws.all isPyWs = true := by
  refine ⟨l.takeWhile isPyWs, ((l.dropWhile isPyWs).reverse.takeWhile isPyWs).reverse,
    ?_, allWs_takeWhile l, ?_⟩
  · have hd : l.dropWhile isPyWs =
        pyStripL l ++ ((l.dropWhile isPyWs).reverse.takeWhile isPyWs).reverse := by
      conv_lhs => rw [← List.reverse_reverse (l.dropWhile isPyWs),
        ← List.takeWhile_append_dropWhile (p := isPyWs) (l := (l.dropWhile isPyWs).reverse)]
      rw [List.reverse_append]
      rfl
    conv_lhs => rw [← List.takeWhile_append_dropWhile (p := isPyWs) (l := l), hd]
  · rw [List.all_reverse]
    exact allWs_takeWhile _

/-- Every off-topic marker starts with a non-whitespace character. -/
lemma marker_head_nonws :
    ∀ m ∈ off_topic_keywords, ∃ c mt, m.data = c :: mt ∧ isPyWs c = false := by
  intro m hm
  have hall : (off_topic_keywords.all (fun m =>
      match m.data with
      | [] => false
      | c :: _ => !isPyWs c)) = true := by decide
  have hthis := List.all_eq_true.mp hall m hm
  cases hd : m.data with
  | nil => rw [hd] at hthis; exact absurd hthis (by simp)
  | cons c mt =>
    rw [hd] at hthis
    exact ⟨c, mt, rfl, by simpa using hthis⟩

/-- Every off-topic marker contains a non-whitespace character. -/
lemma marker_has_nonws :
    ∀ m ∈ off_topic_keywords, m.data.any (fun c => !isPyWs c) = true := by
  intro m hm
  obtain ⟨c, mt, hd, hc⟩ := marker_head_nonws m hm
  rw [hd]
  simp [List.any_cons, hc]

/-- No off-topic marker can match at any suffix of a label word, spilling into
whitespace padding. -/
lemma label_spill :
    ∀ wd ∈ labelWords, ∀ m ∈ off_topic_keywords,
      (sfx wd).all (fun si => noSpill m.data si) = true := by
  intro wd hwd m hm
  have hall : (labelWords.all (fun wd => off_topic_keywords.all (fun m =>
      (sfx wd).all (fun si => noSpill m.data si)))) = true := by decide
  exact List.all_eq_true.mp (List.all_eq_true.mp hall wd hwd) m hm

/-- A valid-label utterance lowers, after stripping, to one of the three label
words. -/
lemma valid_label_lowerWord (u : String) (h : pyTitle (pyStrip u) ∈ classification_options) :
    pyLowerL (pyStripL u.data) ∈ labelWords := by
  have key : ∀ L : String, pyTitle (pyStrip u) = L →
      pyLowerL (pyStripL u.data) = pyLowerL L.data := by
    intro L hL
    have h1 : pyTitleAux false (pyStripL u.data) = L.data := congrArg String.data hL
    calc pyLowerL (pyStripL u.data)
        = pyLowerL (pyTitleAux false (pyStripL u.data)) :=
          (pyLowerL_pyTitleAux false (pyStripL u.data)).symm
      _ = pyLowerL L.data := by rw [h1]
  simp only [classification_options, List.mem_cons, List.not_mem_nil, or_false] at h
  rcases h with h | h | h
  · have hl : pyLowerL "Internal".data = "internal".data := by decide
    rw [key _ h, hl]
    simp [labelWords]
  · have hl : pyLowerL "Public".data = "public".data := by decide
    rw [key _ h, hl]
    simp [labelWords]
  · have hl : pyLowerL "Confidential".data = "confidential".data := by decide
    rw [key _ h, hl]
    simp [labelWords]

/-- An utterance whose strip-and-titlecase form is a valid classification
label is never flagged off-topic: its lowercased form is a label word wrapped
in whitespace, and no off-topic marker occurs in such a string. -/
lemma valid_label_not_off_topic (u : String)
    (h : pyTitle (pyStrip u) ∈ classification_options) : is_off_topic u = false := by
  obtain ⟨lws, tws, hdec, hlws, htws⟩ := pyStripL_decomp u.data
  have hwd := valid_label_lowerWord u h
  have hlow : pyLowerL u.data = lws ++ (pyLowerL (pyStripL u.data) ++ tws) := by
    conv_lhs => rw [hdec]
    rw [pyLowerL_append, pyLowerL_append, pyLowerL_allWs lws hlws, pyLowerL_allWs tws htws]
  have hoffany :
      (off_topic_keywords.any (fun keyword => hasSub (pyLowerL u.data) keyword.data)) = false := by
    rw [List.any_eq_false]
    intro k hk
    simp only [Bool.not_eq_true]
    rw [hlow]
    rw [hasSub_ws_head lws (pyLowerL (pyStripL u.data) ++ tws) k.data hlws
      (marker_head_nonws k hk)]
    exact hasSub_pad_false (pyLowerL (pyStripL u.data)) tws k.data htws
      (marker_has_nonws k hk) (label_spill _ hwd k hk)
  have hdef : is_off_topic u =
      ((off_topic_keywords.any fun keyword => hasSub (pyLowerL u.data) keyword.data) &&
        !(work_keywords.any fun keyword => hasSub (pyLowerL u.data) keyword.data)) := rfl
  rw [hdef, hoffany]
  rfl

/-! ### C1: draining the classification queue -/

/-- One valid classification turn: the front word is popped, a record with the
normalized label, the current department and the clock value is appended, and
the stage moves to "final_options" exactly when the queue empties. -/
lemma classify_valid_step (s : Session) (u t w : String) (rest : List String)
    (hstage : s.conversation_stage = "classify_words")
    (hp : s.pending_classification = w :: rest)
    (hv : pyTitle (pyStrip u) ∈ classification_options) :
    (processUtterance s u t).session.conversation_stage =
      (match rest with | [] => "final_options" | _ :: _ => "classify_words") ∧
    (processUtterance s u t).session.pending_classification = rest ∧
    (processUtterance s u t).session.collected_words = s.collected_words ∧
    (processUtterance s u t).session.user_department = s.user_department ∧
    (processUtterance s u t).session.classified_words =
      s.classified_words ++
        [{ word := w, classification := pyTitle (pyStrip u),
           department := s.user_department, timestamp := t }] := by
  have hoff := valid_label_not_off_topic u hv
  cases rest with
  | nil => simp [processUtterance, respond, hstage, hp, hv, hoff]
  | cons n ns => simp [processUtterance, respond, hstage, hp, hv, hoff]

/-- C1: from stage "classify_words" with queue `[w1, w2, w3]`, three utterances
that are valid classification labels after strip-and-titlecase drain the queue
to empty, move the stage to "final_options", and append exactly three records
to `classified_words` in queue order, each carrying the word, the normalized
label given for it, and the session's department. -/
theorem queue_draining (s : Session) (w1 w2 w3 u1 u2 u3 t1 t2 t3 : String)
    (hstage : s.conversation_stage = "classify_words")
    (hp : s.pending_classification = [w1, w2, w3])
    (h1 : pyTitle (pyStrip u1) ∈ classification_options)
    (h2 : pyTitle (pyStrip u2) ∈ classification_options)
    (h3 : pyTitle (pyStrip u3) ∈ classification_options) :
    (processList s [(u1, t1), (u2, t2), (u3, t3)]).conversation_stage = "final_options" ∧
    (processList s [(u1, t1), (u2, t2), (u3, t3)]).pending_classification = [] ∧
    (processList s [(u1, t1), (u2, t2), (u3, t3)]).classified_words =
      s.classified_words ++
        [{ word := w1, classification := pyTitle (pyStrip u1),
           department := s.user_department, timestamp := t1 },
         { word := w2, classification := pyTitle (pyStrip u2),
           department := s.user_department, timestamp := t2 },
         { word := w3, classification := pyTitle (pyStrip u3),
           department := s.user_department, timestamp := t3 }] := by
  have st1 := classify_valid_step s u1 t1 w1 [w2, w3] hstage hp h1
  have st2 := classify_valid_step (processUtterance s u1 t1).session u2 t2 w2 [w3]
    st1.1 st1.2.1 h2
  have st3 := classify_valid_step
    (processUtterance (processUtterance s u1 t1).session u2 t2).session u3 t3 w3 []
    st2.1 st2.2.1 h3
  have hfold : processList s [(u1, t1), (u2, t2), (u3, t3)] =
      (processUtterance (processUtterance (processUtterance s u1 t1).session
        u2 t2).session u3 t3).session := rfl
  refine ⟨?_, ?_, ?_⟩
  · rw [hfold]; exact st3.1
  · rw [hfold]; exact st3.2.1
  · rw [hfold, st3.2.2.2.2, st2.2.2.2.2, st1.2.2.2.2, st2.2.2.2.1, st1.2.2.2.1]
    simp [List.append_assoc]

/-- Witness for C1: classifying "invoice", "ledger", "policy" with the inputs
"internal", "PUBLIC", " Confidential " drains the queue and appends the three
normalized records in order. -/
theorem queue_draining_witness :
    sampleQueue.conversation_stage = "classify_words" ∧
    sampleQueue.pending_classification = ["invoice", "ledger", "policy"] ∧
    pyTitle (pyStrip "internal") ∈ classification_options ∧
    pyTitle (pyStrip "PUBLIC") ∈ classification_options ∧
    pyTitle (pyStrip " Confidential ") ∈ classification_options ∧
    ((processList sampleQueue [("internal", "T1"), ("PUBLIC", "T2"),
        (" Confidential ", "T3")]).conversation_stage = "final_options" ∧
      (processList sampleQueue [("internal", "T1"), ("PUBLIC", "T2"),
        (" Confidential ", "T3")]).pending_classification = [] ∧
      (processList sampleQueue [("internal", "T1"), ("PUBLIC", "T2"),
        (" Confidential ", "T3")]).classified_words =
        sampleQueue.classified_words ++
          [{ word := "invoice", classification := pyTitle (pyStrip "internal"),
             department := sampleQueue.user_department, timestamp := "T1" },
           { word := "ledger", classification := pyTitle (pyStrip "PUBLIC"),
             department := sampleQueue.user_department, timestamp := "T2" },
           { word := "policy", classification := pyTitle (pyStrip " Confidential "),
             department := sampleQueue.user_department, timestamp := "T3" }]) :=
  ⟨by decide, by decide, by decide, by decide, by decide,
    queue_draining sampleQueue "invoice" "ledger" "policy" "internal" "PUBLIC"
      " Confidential " "T1" "T2" "T3" (by decide) (by decide) (by decide) (by decide)
      (by decide)⟩

end DMO
